import Mathlib

/-!
Verification development for `prettify_stats.py`, a script that renders
per-file performance-statistics CSV files into a formatted spreadsheet
workbook (one worksheet per input file plus a cross-file summary sheet).

The script is shallowly embedded below: Python strings are Lean `String`s
(lists of characters), Python `int` is `Int`, CSV rows are `List String`,
raised exceptions are `Except PyError`, the spreadsheet-authoring library
is modelled by recording every cell write (row, column, content, format),
every conditional-formatting rule and the chart series strings, and the
spreadsheet engine that later opens the file is modelled by small parsers
and evaluators for exactly the formula shapes the script emits.
-/

/-- Errors the Python script can raise while building the workbook:
`indexError` models an `IndexError` from `x[6]` on a short row,
`unpackValueError` models the `ValueError` raised by tuple unpacking when a
row does not have exactly 7 fields, and `intValueError` models the
`ValueError` raised by `int()` on a non-numeric string. -/
inductive PyError where
  | indexError
  | unpackValueError
  | intValueError
deriving DecidableEq

/-! ### Decimal rendering and parsing of natural numbers

`natStr` models Python's `str()` applied to the nonnegative integers the
script interpolates into formulas (row numbers and row counts). -/

/-- The decimal digit character for a value below ten. -/
def digitChar : Nat → Char
  | 0 => '0'
  | 1 => '1'
  | 2 => '2'
  | 3 => '3'
  | 4 => '4'
  | 5 => '5'
  | 6 => '6'
  | 7 => '7'
  | 8 => '8'
  | 9 => '9'
  | _ => '*'

/-- Numeric value of a decimal digit character. -/
def digitVal (c : Char) : Nat := c.toNat - '0'.toNat

/-- Whether a character is a decimal digit. -/
def isDigitC (c : Char) : Bool := '0' ≤ c && c ≤ '9'

/-- Fuel-driven most-significant-first decimal digit accumulation; the fuel
is structural so that concrete values reduce by `rfl`/`decide`. -/
def natDigitsCore : Nat → Nat → List Char → List Char
  | 0, _, acc => acc
  | fuel + 1, n, acc =>
    if n < 10 then digitChar n :: acc
    else natDigitsCore fuel (n / 10) (digitChar (n % 10) :: acc)

/-- Decimal rendering of a natural number, modelling Python `str(n)` for
the nonnegative `n` the script prints into formulas. -/
def natStr (n : Nat) : String := String.mk (natDigitsCore (n + 1) n [])

/-- Consume leading decimal digits, folding them onto an accumulator. -/
def parseNatAux : List Char → Nat → Nat × List Char
  | [], acc => (acc, [])
  | c :: cs, acc =>
    if isDigitC c then parseNatAux cs (10 * acc + digitVal c) else (acc, c :: cs)

/-- Parse a nonempty run of decimal digits from the front of a character
list, returning its value and the unconsumed remainder. -/
def parseNatChars (cs : List Char) : Option (Nat × List Char) :=
  match cs with
  | c :: _ => if isDigitC c then some (parseNatAux cs 0) else none
  | [] => none

/-- A character list whose head (if any) is not a decimal digit. -/
def headNotDigit : List Char → Bool
  | [] => true
  | c :: _ => !isDigitC c

theorem natDigitsCore_fuel (f1 : Nat) : ∀ f2 n acc, n < f1 → n < f2 →
    natDigitsCore f1 n acc = natDigitsCore f2 n acc := by
  induction f1 with
  | zero => intro f2 n acc h1 _; omega
  | succ f ih =>
    intro f2 n acc h1 h2
    cases f2 with
    | zero => omega
    | succ g =>
      simp only [natDigitsCore]
      by_cases hn : n < 10
      · simp [hn]
      · simp only [hn, if_false]
        have hpos : 0 < n := by omega
        have hdiv : n / 10 < n := Nat.div_lt_self hpos (by omega)
        exact ih g (n / 10) _ (by omega) (by omega)

theorem natDigitsCore_rec (n : Nat) (acc : List Char) :
    natDigitsCore (n + 1) n acc =
      if n < 10 then digitChar n :: acc
      else natDigitsCore (n / 10 + 1) (n / 10) (digitChar (n % 10) :: acc) := by
  simp only [natDigitsCore]
  by_cases hn : n < 10
  · simp [hn]
  · simp only [hn, if_false]
    have hpos : 0 < n := by omega
    have hdiv : n / 10 < n := Nat.div_lt_self hpos (by omega)
    exact natDigitsCore_fuel n (n / 10 + 1) (n / 10) _ (by omega) (by omega)

theorem natDigitsCore_append (n : Nat) : ∀ acc,
    natDigitsCore (n + 1) n acc = natDigitsCore (n + 1) n [] ++ acc := by
  induction n using Nat.strong_induction_on with
  | _ n ih =>
    intro acc
    rw [natDigitsCore_rec n acc, natDigitsCore_rec n []]
    by_cases hn : n < 10
    · rw [if_pos hn, if_pos hn]; rfl
    · have hpos : 0 < n := by omega
      have hdiv : n / 10 < n := Nat.div_lt_self hpos (by omega)
      rw [if_neg hn, if_neg hn,
        ih (n / 10) hdiv (digitChar (n % 10) :: acc),
        ih (n / 10) hdiv [digitChar (n % 10)]]
      simp

theorem isDigitC_digitChar (d : Nat) (h : d < 10) : isDigitC (digitChar d) = true := by
  interval_cases d <;> decide

theorem digitVal_digitChar (d : Nat) (h : d < 10) : digitVal (digitChar d) = d := by
  interval_cases d <;> decide

/-- Number of decimal digits `natStr` produces. -/
def numLen (n : Nat) : Nat := (natDigitsCore (n + 1) n []).length

theorem numLen_rec (n : Nat) :
    numLen n = if n < 10 then 1 else numLen (n / 10) + 1 := by
  by_cases hn : n < 10
  · simp only [numLen]
    rw [natDigitsCore_rec, if_pos hn]
    simp [hn]
  · simp only [numLen]
    rw [natDigitsCore_rec, if_neg hn,
      natDigitsCore_append (n / 10) [digitChar (n % 10)]]
    simp [hn]

theorem parseNatAux_natDigits (n : Nat) : ∀ a rest,
    parseNatAux (natDigitsCore (n + 1) n [] ++ rest) a =
      parseNatAux rest (a * 10 ^ numLen n + n) := by
  induction n using Nat.strong_induction_on with
  | _ n ih =>
    intro a rest
    by_cases hn : n < 10
    · rw [natDigitsCore_rec, if_pos hn]
      simp only [List.cons_append, List.nil_append, parseNatAux,
        isDigitC_digitChar n hn, if_true, digitVal_digitChar n hn]
      rw [numLen_rec, if_pos hn]
      congr 1
      ring
    · have hpos : 0 < n := by omega
      have hdiv : n / 10 < n := Nat.div_lt_self hpos (by omega)
      rw [natDigitsCore_rec, if_neg hn,
        natDigitsCore_append (n / 10) [digitChar (n % 10)]]
      have hmod : n % 10 < 10 := Nat.mod_lt n (by omega)
      rw [List.append_assoc, List.singleton_append,
        ih (n / 10) hdiv a (digitChar (n % 10) :: rest)]
      simp only [parseNatAux, isDigitC_digitChar (n % 10) hmod, if_true,
        digitVal_digitChar (n % 10) hmod]
      rw [numLen_rec n, if_neg hn]
      congr 1
      have hdm : 10 * (n / 10) + n % 10 = n := Nat.div_add_mod n 10
      calc 10 * (a * 10 ^ numLen (n / 10) + n / 10) + n % 10
          = a * 10 ^ (numLen (n / 10) + 1) + (10 * (n / 10) + n % 10) := by ring
        _ = a * 10 ^ (numLen (n / 10) + 1) + n := by rw [hdm]

theorem natDigits_head (n : Nat) :
    ∃ c cs, natDigitsCore (n + 1) n [] = c :: cs ∧ isDigitC c = true := by
  induction n using Nat.strong_induction_on with
  | _ n ih =>
    by_cases hn : n < 10
    · exact ⟨digitChar n, [], by rw [natDigitsCore_rec, if_pos hn], isDigitC_digitChar n hn⟩
    · have hpos : 0 < n := by omega
      have hdiv : n / 10 < n := Nat.div_lt_self hpos (by omega)
      obtain ⟨c, cs, hcs, hc⟩ := ih (n / 10) hdiv
      refine ⟨c, cs ++ [digitChar (n % 10)], ?_, hc⟩
      rw [natDigitsCore_rec, if_neg hn,
        natDigitsCore_append (n / 10) [digitChar (n % 10)], hcs]
      simp

/-- Round trip: the parser recovers exactly the number `natStr` printed,
leaving any non-digit-headed remainder untouched. -/
theorem parseNatChars_natStr (n : Nat) (rest : List Char)
    (hrest : headNotDigit rest = true) :
    parseNatChars ((natStr n).data ++ rest) = some (n, rest) := by
  have hdata : (natStr n).data = natDigitsCore (n + 1) n [] := rfl
  obtain ⟨c, cs, hcs, hc⟩ := natDigits_head n
  rw [hdata, hcs]
  simp only [List.cons_append, parseNatChars, hc, if_true]
  have := parseNatAux_natDigits n 0 rest
  rw [hcs] at this
  simp only [List.cons_append] at this
  rw [this]
  have : parseNatAux rest n = (n, rest) := by
    cases rest with
    | nil => rfl
    | cons r rs =>
      simp only [headNotDigit, Bool.not_eq_true'] at hrest
      simp [parseNatAux, hrest]
  simp [this]

/-! ### Python `int()` on CSV fields

Models the core of Python's `int(s)` for the plain optionally-signed
decimal literals appearing in the stats files (returns `none`, i.e. raises
`ValueError`, on anything else). -/

/-- Fold a character list of digits into a value, failing on a non-digit. -/
def digitsValGo : List Char → Nat → Option Nat
  | [], acc => some acc
  | c :: cs, acc =>
    if isDigitC c then digitsValGo cs (10 * acc + digitVal c) else none

/-- Value of a nonempty all-digit character list. -/
def digitsVal (cs : List Char) : Option Nat :=
  match cs with
  | [] => none
  | _ :: _ => digitsValGo cs 0

/-- Python `int(s)` restricted to optionally-signed decimal literals. -/
def pyInt (s : String) : Option Int :=
  match s.data with
  | '-' :: rest => (digitsVal rest).map (fun n => -(n : Int))
  | '+' :: rest => (digitsVal rest).map (fun n => (n : Int))
  | cs => (digitsVal cs).map (fun n => (n : Int))

/-! ### Workbook data model

Cell writes, formats and conditional-formatting rules as recorded through
the spreadsheet-authoring library. -/

/-- A cell format, modelling the dictionaries passed to
`workbook.add_format` (lines 28-33). -/
structure Fmt where
  bg_color : Option String
  font_color : Option String
  num_format : Option String
deriving DecidableEq

/-- Format dictionary of line 28. -/
def green_bg_format : Fmt := ⟨some ("#00ff00"), none, none⟩

/-- Format dictionary of line 29. -/
def yellow_bg_format : Fmt := ⟨some ("#ffff00"), none, none⟩

/-- Format dictionary of line 30. -/
def red_bg_format : Fmt := ⟨some ("#ff0000"), none, none⟩

/-- Format dictionary of line 31: near-black background, white font. -/
def black_bg_format : Fmt := ⟨some ("#000000"), some ("#ffffff"), none⟩

/-- Format dictionary of line 32. -/
def percent_format : Fmt := ⟨none, none, some ("0.00%")⟩

/-- Format dictionary of line 33. -/
def two_decimal_format : Fmt := ⟨none, none, some ("0.00")⟩

/-- Absence of an explicit format argument in a `write` call. -/
def no_format : Fmt := ⟨none, none, none⟩

/-- Content written to one cell: a text cell (`write_string`), a numeric
cell (`write_number`), or a formula cell (`write` with a string starting
with an equals sign, which the library records as a formula). -/
inductive CellWrite where
  | str (s : String)
  | num (z : Int)
  | formula (s : String)
deriving DecidableEq

/-- One recorded cell write: 0-based row and column indices as passed to
the library (spreadsheet row number is `row + 1`), content, and format. -/
structure Write where
  row : Nat
  col : Nat
  cell : CellWrite
  fmt : Fmt
deriving DecidableEq

/-- One conditional-formatting rule as passed to
`worksheet.conditional_format` (lines 71-76); the criteria is always
the string spelled "greater than". -/
structure CondRule where
  range : String
  criteria : String
  value : Rat
  fmt : Fmt
deriving DecidableEq

/-- A data worksheet produced by `create_worksheet`: its (derived) name,
all cell writes, all conditional-formatting rules, and the pie-chart
series strings and anchor cell. -/
structure Worksheet where
  name : String
  writes : List Write
  condFormats : List CondRule
  chartCategories : String
  chartValues : String
  chartPos : String
deriving DecidableEq

/-- The summary sheet produced by `create_total_chart`. -/
structure TotalSheet where
  name : String
  writes : List Write
  chartCategories : String
  chartValues : String
  chartPos : String
deriving DecidableEq

/-- The finished workbook: the data sheets in creation order plus the
trailing summary sheet. -/
structure Workbook where
  sheets : List Worksheet
  total : TotalSheet
deriving DecidableEq

/-! ### Embedding of `create_worksheet` (lines 14-110) -/

/-- Header row tuple of lines 25-26. -/
def headers : List String :=
  [("File"), ("ast"), ("ast %"), ("walk"), ("walk %"), ("append comments"),
   ("append comments %"), ("walk comments"), ("walk comments %"), ("total"),
   ("file size (bytes)")]

/-- Line 38. -/
def total_column : Nat := 9

/-- Line 39: `chr(ord('A') + total_column)`. -/
def total_column_chr : Char := Char.ofNat ('A'.toNat + total_column)

/-- Line 40. -/
def file_size_data_column : Nat := 6

/-- Line 78: `len(headers) + 2`. -/
def stats_column : Nat := headers.length + 2

/-- Line 79. -/
def stats_column_chr : Char := Char.ofNat ('A'.toNat + stats_column)

/-- Line 80. -/
def stats_results_column_chr : Char := Char.ofNat ('A'.toNat + stats_column + 1)

/-- Character-list test modelling Python `str.startswith`. -/
def listBeginsWith : List Char → List Char → Bool
  | [], _ => true
  | _ :: _, [] => false
  | c :: cs, d :: ds => c == d && listBeginsWith cs ds

/-- Character-list test modelling Python `str.endswith`. -/
def listFinishesWith (pat l : List Char) : Bool :=
  listBeginsWith pat.reverse l.reverse

/-- Sheet-name derivation of lines 17-22: strip a leading literal
`stats-`, strip a trailing literal `.csv`, truncate to 30 characters. -/
def deriveSheetName (worksheet_name : String) : String :=
  let n1 := if listBeginsWith (("stats-").data) worksheet_name.data
    then String.mk (worksheet_name.data.drop (("stats-").length)) else worksheet_name
  let n2 := if listFinishesWith ((".csv").data) n1.data
    then String.mk (n1.data.take (n1.data.length - ((".csv").length))) else n1
  String.mk (n2.data.take 30)

/-- Sort key extraction of line 41: `int(x[file_size_data_column])`; a
missing seventh field raises `IndexError`, a non-numeric one
`ValueError`. -/
def sortKeyOf (x : List String) : Except PyError Int :=
  match x.get? file_size_data_column with
  | none => .error .indexError
  | some s =>
    match pyInt s with
    | none => .error .intValueError
    | some k => .ok k

/-- Pair every row with its sort key, in order, stopping at the first
failing key, as Python's `sorted` does while materialising keys. -/
def keyedRows : List (List String) → Except PyError (List (Int × List String))
  | [] => .ok []
  | x :: xs =>
    match sortKeyOf x with
    | .error e => .error e
    | .ok k =>
      match keyedRows xs with
      | .error e => .error e
      | .ok rest => .ok ((k, x) :: rest)

/-- Stable descending insertion: the new element goes before the first
element whose key is not strictly greater, so equal keys keep the original
relative order. -/
def insertDesc (p : Int × List String) : List (Int × List String) → List (Int × List String)
  | [] => [p]
  | q :: qs => if p.1 < q.1 then q :: insertDesc p qs else p :: q :: qs

/-- Stable sort by key, descending: the observable behaviour of
`sorted(..., key=..., reverse=True)` at line 41. -/
def sortDescKeyed : List (Int × List String) → List (Int × List String)
  | [] => []
  | p :: ps => insertDesc p (sortDescKeyed ps)

/-- Line 41: filter out empty rows, then sort the remainder by the integer
value of the seventh field, descending, stably. -/
def sortedData (data : List (List String)) : Except PyError (List (List String)) :=
  match keyedRows (data.filter (fun x => !x.isEmpty)) with
  | .error e => .error e
  | .ok keyed => .ok ((sortDescKeyed keyed).map Prod.snd)

/-- One parsed, fully unpacked stat row, as bound by the tuple unpacking
at line 46 with the `int()` conversions of lines 51-60 applied. -/
structure StatRow where
  file : String
  ast : Int
  walk : Int
  append_comments : Int
  walk_comments : Int
  total : Int
  file_size : Int
deriving DecidableEq

/-- Unpack one row (line 46) and convert its numeric fields (lines
51-60): a row without exactly 7 fields raises the unpacking `ValueError`,
a non-numeric field raises the `int()` `ValueError`. -/
def parseRow (row_data : List String) : Except PyError StatRow :=
  match row_data with
  | [file, ast, walk, append_comments, walk_comments, total, file_size] =>
    match pyInt ast, pyInt walk, pyInt append_comments, pyInt walk_comments,
        pyInt total, pyInt file_size with
    | some a, some w, some ac, some wc, some t, some fsz =>
      .ok ⟨file, a, w, ac, wc, t, fsz⟩
    | _, _, _, _, _, _ => .error .intValueError
  | _ => .error .unpackValueError

/-- Unpack and convert every sorted row in order, stopping at the first
failure, as the loop of lines 43-60 does. -/
def parseRows : List (List String) → Except PyError (List StatRow)
  | [] => .ok []
  | x :: xs =>
    match parseRow x with
    | .error e => .error e
    | .ok r =>
      match parseRows xs with
      | .error e => .error e
      | .ok rest => .ok (r :: rest)

/-- The stat rows a sheet writes, in writing order: the filtered, sorted
rows of line 41 unpacked and converted by the loop of lines 43-60. -/
def sheetRows (data : List (List String)) : Except PyError (List StatRow) :=
  match sortedData data with
  | .error e => .error e
  | .ok sorted => parseRows sorted

/-- Header-row writes of lines 35-36. -/
def headerWrites : List Write :=
  [⟨0, 0, .str ("File"), no_format⟩,
   ⟨0, 1, .str ("ast"), no_format⟩,
   ⟨0, 2, .str ("ast %"), no_format⟩,
   ⟨0, 3, .str ("walk"), no_format⟩,
   ⟨0, 4, .str ("walk %"), no_format⟩,
   ⟨0, 5, .str ("append comments"), no_format⟩,
   ⟨0, 6, .str ("append comments %"), no_format⟩,
   ⟨0, 7, .str ("walk comments"), no_format⟩,
   ⟨0, 8, .str ("walk comments %"), no_format⟩,
   ⟨0, 9, .str ("total"), no_format⟩,
   ⟨0, 10, .str ("file size (bytes)"), no_format⟩]

/-- Cell writes of one data row (lines 48-60): `row` is the 0-based
worksheet row index, `row + 1` the spreadsheet row number interpolated
into the percentage formulas, and column `J` (`total_column_chr`) holds
the row's total time. -/
def rowWrites (row : Nat) (r : StatRow) : List Write :=
  let row_str := natStr (row + 1)
  let total_cell := String.singleton total_column_chr ++ row_str
  [⟨row, 0, .str r.file, no_format⟩,
   ⟨row, 1, .num r.ast, no_format⟩,
   ⟨row, 2, .formula ("=B" ++ row_str ++ "/" ++ total_cell), percent_format⟩,
   ⟨row, 3, .num r.walk, no_format⟩,
   ⟨row, 4, .formula ("=D" ++ row_str ++ "/" ++ total_cell), percent_format⟩,
   ⟨row, 5, .num r.append_comments, no_format⟩,
   ⟨row, 6, .formula ("=F" ++ row_str ++ "/" ++ total_cell), percent_format⟩,
   ⟨row, 7, .num r.walk_comments, no_format⟩,
   ⟨row, 8, .formula ("=H" ++ row_str ++ "/" ++ total_cell), percent_format⟩,
   ⟨row, 9, .num r.total, no_format⟩,
   ⟨row, 10, .num r.file_size, no_format⟩]

/-- Writes of the whole data loop `for row, row_data in
enumerate(sorted_data, 1)` (line 43), starting at worksheet row index 1. -/
def dataWritesFrom : Nat → List StatRow → List Write
  | _, [] => []
  | row, r :: rest => rowWrites row r ++ dataWritesFrom (row + 1) rest

/-- Summary-panel writes of lines 82-99; `n` is `len(sorted_data)`. -/
def statsWrites (n : Nat) : List Write :=
  [⟨0, stats_column, .str ("Average AST time"), no_format⟩,
   ⟨0, stats_column + 1, .formula ("=AVERAGE(B1:B" ++ natStr n ++ ")"), no_format⟩,
   ⟨1, stats_column, .str ("AST creation"), no_format⟩,
   ⟨1, stats_column + 1, .formula ("=AVERAGE(C1:C" ++ natStr n ++ ")"), percent_format⟩,
   ⟨2, stats_column, .str ("Walk"), no_format⟩,
   ⟨2, stats_column + 1, .formula ("=AVERAGE(E1:E" ++ natStr n ++ ")"), percent_format⟩,
   ⟨3, stats_column, .str ("Append Comments"), no_format⟩,
   ⟨3, stats_column + 1, .formula ("=AVERAGE(G1:G" ++ natStr n ++ ")"), percent_format⟩,
   ⟨4, stats_column, .str ("Walk Comments"), no_format⟩,
   ⟨4, stats_column + 1, .formula ("=AVERAGE(I1:I" ++ natStr n ++ ")"), percent_format⟩,
   ⟨5, stats_column, .str ("Total"), no_format⟩,
   ⟨5, stats_column + 1, .formula ("=SUM(J2:J" ++ natStr n ++ ") / 1000 / 1000"),
     two_decimal_format⟩,
   ⟨5, stats_column + 2, .str ("ms"), no_format⟩]

/-- Line 62. -/
def colored_format_columns : List Char := ['C', 'E', 'G', 'I']

/-- Threshold/format tiers of lines 65-70, in declaration order
(highest threshold first). -/
def tier_formats : List (Rat × Fmt) :=
  [(0.75, black_bg_format), (0.5, red_bg_format),
   (0.25, yellow_bg_format), (0, green_bg_format)]

/-- Conditional-formatting rules of lines 62-76; the range string is
built with `len(data)` (the raw, unfiltered row count) as its end row. -/
def condFormatRules (dataLen : Nat) : List CondRule :=
  colored_format_columns.flatMap (fun c =>
    tier_formats.map (fun vf =>
      ⟨String.singleton c ++ "2:" ++ String.singleton c ++ natStr dataLen,
       "greater than", vf.1, vf.2⟩))

/-- Assembled worksheet value: all writes, the conditional formats, and
the pie-chart series strings of lines 101-108. -/
def buildWorksheet (name : String) (rs : List StatRow) (dataLen : Nat) : Worksheet :=
  ⟨name,
   headerWrites ++ dataWritesFrom 1 rs ++ statsWrites rs.length,
   condFormatRules dataLen,
   "=" ++ name ++ "!$" ++ String.singleton stats_column_chr ++ "$2:$"
     ++ String.singleton stats_column_chr ++ "$5",
   "=" ++ name ++ "!$" ++ String.singleton stats_results_column_chr ++ "$2:$"
     ++ String.singleton stats_results_column_chr ++ "$5",
   String.singleton stats_column_chr ++ "8"⟩

/-- Embedding of `create_worksheet` (lines 14-110): derives the sheet
name, filters, sorts, unpacks and converts the rows, and on success
returns the fully written worksheet (whose `name` field is the derived
name returned at line 110). Any raised exception aborts the sheet. -/
def create_worksheet (worksheet_name : String) (data : List (List String)) :
    Except PyError Worksheet :=
  match sheetRows data with
  | .error e => .error e
  | .ok rs => .ok (buildWorksheet (deriveSheetName worksheet_name) rs data.length)

/-! ### Embedding of `create_total_chart` (lines 113-133) -/

/-- Writes of one summary row (lines 120-123): sheet name, a reference to
that sheet's grand-total cell `$O$6`, and its share of the aggregate cell
`$B$(len(worksheet_names) + 3)`. -/
def totalRowWrites (shareDen : Nat) (i : Nat) (nm : String) : List Write :=
  [⟨i, 0, .str nm, no_format⟩,
   ⟨i, 1, .formula ("=" ++ nm ++ "!$O$6"), no_format⟩,
   ⟨i, 2, .formula ("=" ++ nm ++ "!$O$6 / $B$" ++ natStr shareDen), percent_format⟩]

/-- The summary rows of the `for i, name in enumerate(worksheet_names)`
loop, from row index `i`. -/
def totalRowsFrom (shareDen : Nat) : Nat → List String → List Write
  | _, [] => []
  | i, nm :: rest => totalRowWrites shareDen i nm ++ totalRowsFrom shareDen (i + 1) rest

/-- Embedding of `create_total_chart`: the summary sheet named `Total`
with one row per prior sheet, the aggregate row at worksheet row index
`len + 2` (lines 125-126), and the pie-chart series of lines 128-131. -/
def create_total_chart (worksheet_names : List String) : TotalSheet :=
  ⟨("Total"),
   totalRowsFrom (worksheet_names.length + 3) 0 worksheet_names ++
     [⟨worksheet_names.length + 2, 0, .str ("Total"), no_format⟩,
      ⟨worksheet_names.length + 2, 1,
        .formula ("=SUM($B$1:$B$" ++ natStr worksheet_names.length ++ ")"), no_format⟩],
   "=Total!$A$1:$A$" ++ natStr worksheet_names.length,
   "=Total!$B$1:$B$" ++ natStr worksheet_names.length,
   ("A1")⟩

/-! ### Embedding of `create_workbook`, `read_data` and `main`
(lines 136-152) -/

/-- Create every data sheet in input order, stopping at the first raised
exception (the loop of lines 139-140). -/
def buildSheets : List (String × List (List String)) → Except PyError (List Worksheet)
  | [] => .ok []
  | (nm, d) :: rest =>
    match create_worksheet nm d with
    | .error e => .error e
    | .ok ws =>
      match buildSheets rest with
      | .error e => .error e
      | .ok others => .ok (ws :: others)

/-- Embedding of `create_workbook`: all data sheets, then the summary
sheet over the collected (derived) sheet names; the workbook value exists
only if every sheet succeeded, matching the fact that `workbook.close()`
at line 143 is reached only then. -/
def create_workbook (data : List (String × List (List String))) :
    Except PyError Workbook :=
  match buildSheets data with
  | .error e => .error e
  | .ok sheets => .ok ⟨sheets, create_total_chart (sheets.map (fun ws => ws.name))⟩

/-- Embedding of `read_data` (lines 8-11) over a file-system model:
`fs` returns the comma-parsed rows of a readable file and `none` for an
unreadable path (an `IOError`); the header row is discarded. -/
def read_data (fs : String → Option (List (List String))) (filename : String) :
    Option (List (List String)) :=
  (fs filename).map (fun rows => rows.drop 1)

/-- Read every input file, in argument order, before any workbook object
exists (the list comprehension of line 151); the first unreadable file
aborts the whole run. -/
def readInputs (fs : String → Option (List (List String))) :
    List String → Option (List (String × List (List String)))
  | [] => some []
  | f :: rest =>
    match read_data fs f with
    | none => none
    | some d =>
      match readInputs fs rest with
      | none => none
      | some others => some ((f, d) :: others)

/-- Outcome of one invocation of the script: usage error (usage text
printed, exit status 1, no output), an uncaught `IOError` from reading an
input (exit status 1, no output), an uncaught exception while building a
sheet (exit status 1, workbook never closed, no usable output), or a
finished workbook written to `stats.xlsx` (exit status 0). -/
inductive RunOutcome where
  | usage
  | ioAbort
  | buildAbort (e : PyError)
  | written (wb : Workbook)

/-- Exit status of an outcome; an uncaught Python exception exits 1. -/
def exitCodeOf : RunOutcome → Nat
  | .written _ => 0
  | _ => 1

/-- Whether the usage message was printed. -/
def printsUsage : RunOutcome → Bool
  | .usage => true
  | _ => false

/-- The `stats.xlsx` file produced by the run, if any. -/
def outputOf : RunOutcome → Option Workbook
  | .written wb => some wb
  | _ => none

/-- Embedding of `main` (lines 146-152): with fewer than two `argv`
entries print usage and exit 1; otherwise read every input file first,
then build the workbook and write `stats.xlsx`. -/
def pyMain (argv : List String) (fs : String → Option (List (List String))) :
    RunOutcome :=
  if argv.length < 2 then .usage
  else
    match readInputs fs (argv.drop 1) with
    | none => .ioAbort
    | some data =>
      match create_workbook data with
      | .error e => .buildAbort e
      | .ok wb => .written wb

/-! ### Spreadsheet-engine semantics

Cell lookup over the recorded writes, parsers for exactly the formula
shapes the script emits, and evaluators modelling how the spreadsheet
engine computes those formulas when the file is opened. -/

/-- Content of the cell at 0-based (row, col), if written. -/
def cellAt (ws : Worksheet) (row col : Nat) : Option CellWrite :=
  (ws.writes.find? (fun w => w.row == row && w.col == col)).map (fun w => w.cell)

/-- Format of the cell at 0-based (row, col), if written. -/
def fmtAt (ws : Worksheet) (row col : Nat) : Option Fmt :=
  (ws.writes.find? (fun w => w.row == row && w.col == col)).map (fun w => w.fmt)

/-- Content of a summary-sheet cell at 0-based (row, col), if written. -/
def cellAtT (ts : TotalSheet) (row col : Nat) : Option CellWrite :=
  (ts.writes.find? (fun w => w.row == row && w.col == col)).map (fun w => w.cell)

/-- 0-based column index of a column letter. -/
def colIdx (c : Char) : Nat := c.toNat - 'A'.toNat

/-- Whether a character is an upper-case column letter. -/
def isColLetter (c : Char) : Bool := 'A' ≤ c && c ≤ 'Z'

/-- Parse a single-letter cell reference such as `B12`: column letter and
1-based spreadsheet row number. -/
def parseCellRefCore : List Char → Option ((Char × Nat) × List Char)
  | c :: cs =>
    if isColLetter c then
      match parseNatChars cs with
      | some (n, rest) => some ((c, n), rest)
      | none => none
    else none
  | [] => none

/-- Consume an expected literal lead, comparing character by character. -/
def dropLead : List Char → List Char → Option (List Char)
  | [], cs => some cs
  | _ :: _, [] => none
  | p :: ps, c :: cs => if p == c then dropLead ps cs else none

/-- Parse a division formula `=B12/J12`. -/
def parseDivCore (cs : List Char) : Option ((Char × Nat) × (Char × Nat)) :=
  match dropLead (("=").data) cs with
  | some rest =>
    match parseCellRefCore rest with
    | some (r1, rest1) =>
      match dropLead (("/").data) rest1 with
      | some rest2 =>
        match parseCellRefCore rest2 with
        | some (r2, rest3) => if rest3.isEmpty then some (r1, r2) else none
        | none => none
      | none => none
    | none => none
  | none => none

/-- Parse a relative range such as `C2:C5`. -/
def parseRangeCore (cs : List Char) :
    Option ((Char × Nat) × (Char × Nat) × List Char) :=
  match parseCellRefCore cs with
  | some (r1, rest1) =>
    match dropLead ((":").data) rest1 with
    | some rest2 =>
      match parseCellRefCore rest2 with
      | some (r2, rest3) => some (r1, r2, rest3)
      | none => none
    | none => none
  | none => none

/-- Parse an `=AVERAGE(C1:C5)` formula into its range endpoints. -/
def parseAvgCore (cs : List Char) : Option ((Char × Nat) × (Char × Nat)) :=
  match dropLead (("=AVERAGE(").data) cs with
  | some rest =>
    match parseRangeCore rest with
    | some (r1, r2, rest2) => if rest2 == [')'] then some (r1, r2) else none
    | none => none
  | none => none

/-- Parse an `=SUM(J2:J5) / 1000 / 1000` formula into its range
endpoints. -/
def parseSumMsCore (cs : List Char) : Option ((Char × Nat) × (Char × Nat)) :=
  match dropLead (("=SUM(").data) cs with
  | some rest =>
    match parseRangeCore rest with
    | some (r1, r2, rest2) =>
      if rest2 == ((") / 1000 / 1000").data) then some (r1, r2) else none
    | none => none
  | none => none

/-- Split a character list at its first `!`, as a spreadsheet engine
splits a cross-sheet reference into sheet name and cell. -/
def splitAtBang : List Char → Option (List Char × List Char)
  | [] => none
  | c :: rest =>
    if c == '!' then some ([], rest)
    else
      match splitAtBang rest with
      | some (pre, post) => some (c :: pre, post)
      | none => none

/-- Parse a cross-sheet reference `=name!$O$6` into the sheet name. -/
def parseSheetRefO6 (s : String) : Option String :=
  match dropLead (("=").data) s.data with
  | some rest =>
    match splitAtBang rest with
    | some (nm, rest2) =>
      if rest2 == (("$O$6").data) then some (String.mk nm) else none
    | none => none
  | none => none

/-- Parse a share formula `=name!$O$6 / $B$7` into the sheet name and the
1-based row of the referenced aggregate cell in column B. -/
def parseShareFormula (s : String) : Option (String × Nat) :=
  match dropLead (("=").data) s.data with
  | some rest =>
    match splitAtBang rest with
    | some (nm, rest2) =>
      match dropLead (("$O$6 / $B$").data) rest2 with
      | some rest3 =>
        match parseNatChars rest3 with
        | some (r, rest4) => if rest4.isEmpty then some (String.mk nm, r) else none
        | none => none
      | none => none
    | none => none
  | none => none

/-- Parse an absolute column-B sum `=SUM($B$1:$B$5)` into its 1-based row
endpoints. -/
def parseAbsSumB (s : String) : Option (Nat × Nat) :=
  match dropLead (("=SUM($B$").data) s.data with
  | some rest =>
    match parseNatChars rest with
    | some (a, rest2) =>
      match dropLead ((":$B$").data) rest2 with
      | some rest3 =>
        match parseNatChars rest3 with
        | some (b, rest4) => if rest4 == [')'] then some (a, b) else none
        | none => none
      | none => none
    | none => none
  | none => none

/-- Value of a plain numeric cell addressed by column letter and 1-based
spreadsheet row number. -/
def numAt (ws : Worksheet) (c : Char) (sr : Nat) : Option Rat :=
  match cellAt ws (sr - 1) (colIdx c) with
  | some (.num z) => some ((z : Rat))
  | _ => none

/-- Evaluate a division formula over the sheet's numeric cells; division
by zero is a spreadsheet error, modelled as `none`. -/
def evalDivFormula (ws : Worksheet) (s : String) : Option Rat :=
  match parseDivCore s.data with
  | some ((c1, r1), (c2, r2)) =>
    match numAt ws c1 r1, numAt ws c2 r2 with
    | some x, some y => if y = 0 then none else some (x / y)
    | _, _ => none
  | none => none

/-- Computed value of a cell: a numeric cell's number, a division
formula's value; text and absent cells have no numeric value. -/
def cellValue (ws : Worksheet) (c : Char) (sr : Nat) : Option Rat :=
  match cellAt ws (sr - 1) (colIdx c) with
  | some (.num z) => some ((z : Rat))
  | some (.formula f) => evalDivFormula ws f
  | _ => none

/-- The 1-based spreadsheet rows a range `a..b` spans. -/
def rangeRows (a b : Nat) : List Nat := List.range' a (b + 1 - a)

/-- Evaluate an AVERAGE formula the way a spreadsheet engine does:
text and empty cells in the range are ignored; an all-ignored range is an
error (`none`). -/
def evalAverage (ws : Worksheet) (s : String) : Option Rat :=
  match parseAvgCore s.data with
  | some ((c1, a), (c2, b)) =>
    if c1 = c2 then
      let vals := (rangeRows a b).filterMap (cellValue ws c1)
      if vals.length = 0 then none else some (vals.sum / (vals.length : Rat))
    else none
  | none => none

/-- Evaluate the grand-total formula `=SUM(range) / 1000 / 1000`;
text and empty cells in the range count as zero, as in spreadsheet SUM. -/
def evalSumMs (ws : Worksheet) (s : String) : Option Rat :=
  match parseSumMsCore s.data with
  | some ((c1, a), (c2, b)) =>
    if c1 = c2 then
      some ((((rangeRows a b).filterMap (cellValue ws c1)).sum) / 1000 / 1000)
    else none
  | none => none

/-- Whether a rule's range string covers the cell at column letter `c`,
1-based spreadsheet row `sr`. -/
def rangeHasCell (rangeStr : String) (c : Char) (sr : Nat) : Bool :=
  match parseRangeCore rangeStr.data with
  | some ((c1, a), (c2, b), rest) =>
    rest.isEmpty && c1 == c && c2 == c && decide (a ≤ sr) && decide (sr ≤ b)
  | none => false

/-- The conditional-formatting rules covering a cell, in declaration
(priority) order. -/
def rulesForCell (ws : Worksheet) (c : Char) (sr : Nat) : List CondRule :=
  ws.condFormats.filter (fun r => rangeHasCell r.range c sr)

/-- The dominant conditional format of a cell for value `v`: the first
covering rule (in declaration order) whose `greater than` criterion
matches, as the engine resolves overlapping rules by priority. -/
def dominantFmtAt (ws : Worksheet) (c : Char) (sr : Nat) (v : Rat) : Option Fmt :=
  ((rulesForCell ws c sr).find? (fun r => decide (r.value < v))).map (fun r => r.fmt)

/-- Value of a summary-sheet column-B cell: a cross-sheet reference
formula evaluates to the referenced sheet's grand-total value under the
valuation `sheetTotal`. -/
def totalBValue (ts : TotalSheet) (sheetTotal : String → Rat) (sr : Nat) : Option Rat :=
  match cellAtT ts (sr - 1) 1 with
  | some (.formula f) =>
    match parseSheetRefO6 f with
    | some nm => some (sheetTotal nm)
    | none => none
  | some (.num z) => some ((z : Rat))
  | _ => none

/-- Sum the values of `k` consecutive cells starting at row `a`. -/
def sumCells (g : Nat → Option Rat) : Nat → Nat → Option Rat
  | _, 0 => some 0
  | a, k + 1 =>
    match g a, sumCells g (a + 1) k with
    | some x, some s => some (x + s)
    | _, _ => none

/-- Evaluate the aggregate formula `=SUM($B$1:$B$n)` of the summary
sheet over the column-B cell values. -/
def evalAbsSumB (ts : TotalSheet) (sheetTotal : String → Rat) (s : String) :
    Option Rat :=
  match parseAbsSumB s with
  | some (a, b) => sumCells (totalBValue ts sheetTotal) a (b + 1 - a)
  | none => none

/-- String-level wrapper of `parseDivCore`. -/
def parseDivFormula (s : String) : Option ((Char × Nat) × (Char × Nat)) :=
  parseDivCore s.data

/-- String-level wrapper of `parseAvgCore`. -/
def parseAvgFormula (s : String) : Option ((Char × Nat) × (Char × Nat)) :=
  parseAvgCore s.data

/-- String-level wrapper of `parseSumMsCore`. -/
def parseSumMsFormula (s : String) : Option ((Char × Nat) × (Char × Nat)) :=
  parseSumMsCore s.data

/-! ### Locating a data row's cells among the recorded writes -/

theorem find?_rowWrites_ne (m col row : Nat) (r : StatRow) (hm : row ≠ m) :
    (rowWrites row r).find? (fun w => w.row == m && w.col == col) = none := by
  rw [List.find?_eq_none]
  intro x hx
  simp only [rowWrites, List.mem_cons, List.not_mem_nil, or_false] at hx
  rcases hx with rfl | rfl | rfl | rfl | rfl | rfl | rfl | rfl | rfl | rfl | rfl <;>
    simp [hm]

theorem find?_dataWritesFrom_lt (rs : List StatRow) : ∀ s m col, m < s →
    (dataWritesFrom s rs).find? (fun w => w.row == m && w.col == col) = none := by
  induction rs with
  | nil => intro s m col _; rfl
  | cons r rest ih =>
    intro s m col h
    simp only [dataWritesFrom, List.find?_append,
      find?_rowWrites_ne m col s r (by omega), Option.none_or]
    exact ih (s + 1) m col (by omega)

theorem find?_dataWritesFrom (rs : List StatRow) : ∀ s k r col, rs.get? k = some r →
    (dataWritesFrom s rs).find? (fun w => w.row == (s + k) && w.col == col) =
      (rowWrites (s + k) r).find? (fun w => w.row == (s + k) && w.col == col) := by
  induction rs with
  | nil => intro s k r col h; simp at h
  | cons r0 rest ih =>
    intro s k r col h
    cases k with
    | zero =>
      simp only [List.get?] at h
      obtain rfl : r0 = r := by injection h
      simp only [dataWritesFrom, List.find?_append,
        find?_dataWritesFrom_lt rest (s + 1) (s + 0) col (by omega), Option.or_none]
      rw [Nat.add_zero]
    | succ j =>
      simp only [List.get?] at h
      simp only [dataWritesFrom, List.find?_append,
        find?_rowWrites_ne (s + (j + 1)) col s r0 (by omega), Option.none_or]
      have hrec := ih (s + 1) j r col h
      rw [show s + (j + 1) = (s + 1) + j by omega]
      exact hrec

theorem find?_headerWrites_ne (m col : Nat) (hm : m ≠ 0) :
    headerWrites.find? (fun w => w.row == m && w.col == col) = none := by
  rw [List.find?_eq_none]
  intro x hx
  simp only [headerWrites, List.mem_cons, List.not_mem_nil, or_false] at hx
  rcases hx with rfl | rfl | rfl | rfl | rfl | rfl | rfl | rfl | rfl | rfl | rfl <;>
    simp [Ne.symm hm]

theorem find?_statsWrites_col (n m col : Nat) (hcol : col < 13) :
    (statsWrites n).find? (fun w => w.row == m && w.col == col) = none := by
  rw [List.find?_eq_none]
  intro x hx
  simp only [statsWrites, stats_column, headers, List.mem_cons, List.not_mem_nil,
    or_false, List.length] at hx
  rcases hx with rfl | rfl | rfl | rfl | rfl | rfl | rfl | rfl | rfl | rfl | rfl | rfl | rfl <;>
    simp <;> omega

/-- The cell of a written data row at a data column is determined by that
row's `rowWrites` block alone. -/
theorem cellAt_data (name : String) (rs : List StatRow) (dataLen k col : Nat)
    (r : StatRow) (hk : rs.get? k = some r) (hcol : col < 13) :
    cellAt (buildWorksheet name rs dataLen) (k + 1) col =
      ((rowWrites (k + 1) r).find?
        (fun w => w.row == (k + 1) && w.col == col)).map (fun w => w.cell) := by
  unfold cellAt buildWorksheet
  simp only [List.find?_append]
  rw [find?_headerWrites_ne (k + 1) col (by omega), Option.none_or]
  have h1 := find?_dataWritesFrom rs 1 k r col hk
  rw [show 1 + k = k + 1 by omega] at h1
  rw [h1, find?_statsWrites_col rs.length (k + 1) col hcol, Option.or_none]

/-! ### The percentage formulas of a data row (claim C1) -/

theorem dropLead_append (pat rest : List Char) : dropLead pat (pat ++ rest) = some rest := by
  induction pat with
  | nil => rfl
  | cons p ps ih => simp [dropLead, ih]

theorem headNotDigit_cons (c : Char) (l : List Char) (hc : isDigitC c = false) :
    headNotDigit (c :: l) = true := by
  simp [headNotDigit, hc]

theorem parseDivCore_build (pre : String) (sc : Char) (m : Nat)
    (hpre : pre.data = ['=', sc]) (hsc : isColLetter sc = true) :
    parseDivCore ((pre ++ natStr m ++ "/" ++
      (String.singleton total_column_chr ++ natStr m)).data) = some ((sc, m), ('J', m)) := by
  have hJ : total_column_chr = 'J' := by decide
  have hdata : (pre ++ natStr m ++ "/" ++ (String.singleton total_column_chr ++ natStr m)).data
      = '=' :: sc :: ((natStr m).data ++ '/' :: 'J' :: (natStr m).data) := by
    rw [hJ]
    simp only [String.data_append, hpre]
    rw [show (String.singleton 'J').data = ['J'] from rfl]
    simp
  rw [hdata]
  have hnat1 : parseNatChars ((natStr m).data ++ '/' :: 'J' :: (natStr m).data)
      = some (m, '/' :: 'J' :: (natStr m).data) :=
    parseNatChars_natStr m _ (headNotDigit_cons '/' _ (by decide))
  have hnat2 : parseNatChars ((natStr m).data) = some (m, []) := by
    have h := parseNatChars_natStr m [] rfl
    rwa [List.append_nil] at h
  simp only [parseDivCore, parseCellRefCore, dropLead, beq_self_eq_true, if_true, hsc,
    hnat1, hnat2, show isColLetter 'J' = true from by decide, List.isEmpty_nil]

theorem rw_col1 (m : Nat) (r : StatRow) :
    (rowWrites m r).find? (fun w => w.row == m && w.col == 1) =
      some ⟨m, 1, .num r.ast, no_format⟩ := by
  simp [rowWrites, List.find?]

theorem rw_col3 (m : Nat) (r : StatRow) :
    (rowWrites m r).find? (fun w => w.row == m && w.col == 3) =
      some ⟨m, 3, .num r.walk, no_format⟩ := by
  simp [rowWrites, List.find?]

theorem rw_col5 (m : Nat) (r : StatRow) :
    (rowWrites m r).find? (fun w => w.row == m && w.col == 5) =
      some ⟨m, 5, .num r.append_comments, no_format⟩ := by
  simp [rowWrites, List.find?]

theorem rw_col7 (m : Nat) (r : StatRow) :
    (rowWrites m r).find? (fun w => w.row == m && w.col == 7) =
      some ⟨m, 7, .num r.walk_comments, no_format⟩ := by
  simp [rowWrites, List.find?]

theorem rw_col9 (m : Nat) (r : StatRow) :
    (rowWrites m r).find? (fun w => w.row == m && w.col == 9) =
      some ⟨m, 9, .num r.total, no_format⟩ := by
  simp [rowWrites, List.find?]

theorem rw_col2 (m : Nat) (r : StatRow) :
    (rowWrites m r).find? (fun w => w.row == m && w.col == 2) =
      some ⟨m, 2, .formula ("=B" ++ natStr (m + 1) ++ "/" ++
        (String.singleton total_column_chr ++ natStr (m + 1))), percent_format⟩ := by
  simp [rowWrites, List.find?]

theorem rw_col4 (m : Nat) (r : StatRow) :
    (rowWrites m r).find? (fun w => w.row == m && w.col == 4) =
      some ⟨m, 4, .formula ("=D" ++ natStr (m + 1) ++ "/" ++
        (String.singleton total_column_chr ++ natStr (m + 1))), percent_format⟩ := by
  simp [rowWrites, List.find?]

theorem rw_col6 (m : Nat) (r : StatRow) :
    (rowWrites m r).find? (fun w => w.row == m && w.col == 6) =
      some ⟨m, 6, .formula ("=F" ++ natStr (m + 1) ++ "/" ++
        (String.singleton total_column_chr ++ natStr (m + 1))), percent_format⟩ := by
  simp [rowWrites, List.find?]

theorem rw_col8 (m : Nat) (r : StatRow) :
    (rowWrites m r).find? (fun w => w.row == m && w.col == 8) =
      some ⟨m, 8, .formula ("=H" ++ natStr (m + 1) ++ "/" ++
        (String.singleton total_column_chr ++ natStr (m + 1))), percent_format⟩ := by
  simp [rowWrites, List.find?]

/-- Correctness of one percentage cell of one data row: the cell holds a
division formula referencing the stage-time cell (column `sc`) and the
total-time cell (column `J`) of the same spreadsheet row `k + 2`, and
evaluating it yields stage time over total time. -/
def pctCellOk (ws : Worksheet) (k pctCol : Nat) (sc : Char) (num den : Int) : Prop :=
  ∃ f, cellAt ws (k + 1) pctCol = some (.formula f) ∧
    parseDivFormula f = some ((sc, k + 2), ('J', k + 2)) ∧
    evalDivFormula ws f = some ((num : Rat) / (den : Rat))

theorem pct_col (name : String) (rs : List StatRow) (dataLen k : Nat) (r : StatRow)
    (stageIdx pctCol : Nat) (sc : Char) (pre : String) (v : Int)
    (hpre : pre.data = ['=', sc]) (hsc : isColLetter sc = true)
    (hcols : colIdx sc = stageIdx)
    (hstage : cellAt (buildWorksheet name rs dataLen) (k + 1) stageIdx = some (.num v))
    (hfc : cellAt (buildWorksheet name rs dataLen) (k + 1) pctCol =
      some (.formula (pre ++ natStr (k + 1 + 1) ++ "/" ++
        (String.singleton total_column_chr ++ natStr (k + 1 + 1)))))
    (hden : cellAt (buildWorksheet name rs dataLen) (k + 1) 9 = some (.num r.total))
    (htot : r.total ≠ 0) :
    pctCellOk (buildWorksheet name rs dataLen) k pctCol sc v r.total := by
  have hparse := parseDivCore_build pre sc (k + 1 + 1) hpre hsc
  refine ⟨_, hfc, ?_, ?_⟩
  · exact hparse
  · have h1 : numAt (buildWorksheet name rs dataLen) sc (k + 1 + 1) = some ((v : Rat)) := by
      unfold numAt
      rw [show (k + 1 + 1) - 1 = k + 1 from rfl, hcols, hstage]
    have h2 : numAt (buildWorksheet name rs dataLen) 'J' (k + 1 + 1) =
        some ((r.total : Rat)) := by
      unfold numAt
      rw [show (k + 1 + 1) - 1 = k + 1 from rfl, show colIdx 'J' = 9 from by decide, hden]
    have hne : ((r.total : Int) : Rat) ≠ 0 := by exact_mod_cast htot
    simp only [evalDivFormula, hparse, h1, h2]
    rw [if_neg hne]

/-- C1: every data row is written at spreadsheet row `k + 2 ≥ 2`; each of
its four percentage cells holds a division formula referencing the same
row's stage-time cell (columns B, D, F, H) and total-time cell (column J),
and evaluating the formula yields exactly stage time / total time for
that row's integers. -/
theorem c1_percentage_formulas (worksheet_name : String) (data : List (List String))
    (ws : Worksheet) (rs : List StatRow) (k : Nat) (r : StatRow)
    (hws : create_worksheet worksheet_name data = .ok ws)
    (hrs : sheetRows data = .ok rs)
    (hk : rs.get? k = some r)
    (htot : r.total ≠ 0) :
    pctCellOk ws k 2 'B' r.ast r.total ∧ pctCellOk ws k 4 'D' r.walk r.total ∧
      pctCellOk ws k 6 'F' r.append_comments r.total ∧
      pctCellOk ws k 8 'H' r.walk_comments r.total := by
  have hwseq : ws = buildWorksheet (deriveSheetName worksheet_name) rs data.length := by
    unfold create_worksheet at hws
    rw [hrs] at hws
    injection hws with h
    exact h.symm
  subst hwseq
  have hA := cellAt_data (deriveSheetName worksheet_name) rs data.length k 1 r hk (by omega)
  rw [rw_col1 (k + 1) r] at hA
  have hW := cellAt_data (deriveSheetName worksheet_name) rs data.length k 3 r hk (by omega)
  rw [rw_col3 (k + 1) r] at hW
  have hAC := cellAt_data (deriveSheetName worksheet_name) rs data.length k 5 r hk (by omega)
  rw [rw_col5 (k + 1) r] at hAC
  have hWC := cellAt_data (deriveSheetName worksheet_name) rs data.length k 7 r hk (by omega)
  rw [rw_col7 (k + 1) r] at hWC
  have hT := cellAt_data (deriveSheetName worksheet_name) rs data.length k 9 r hk (by omega)
  rw [rw_col9 (k + 1) r] at hT
  have hF2 := cellAt_data (deriveSheetName worksheet_name) rs data.length k 2 r hk (by omega)
  rw [rw_col2 (k + 1) r] at hF2
  have hF4 := cellAt_data (deriveSheetName worksheet_name) rs data.length k 4 r hk (by omega)
  rw [rw_col4 (k + 1) r] at hF4
  have hF6 := cellAt_data (deriveSheetName worksheet_name) rs data.length k 6 r hk (by omega)
  rw [rw_col6 (k + 1) r] at hF6
  have hF8 := cellAt_data (deriveSheetName worksheet_name) rs data.length k 8 r hk (by omega)
  rw [rw_col8 (k + 1) r] at hF8
  refine ⟨?_, ?_, ?_, ?_⟩
  · exact pct_col _ rs data.length k r 1 2 'B' ("=B") r.ast rfl (by decide) (by decide)
      hA hF2 hT htot
  · exact pct_col _ rs data.length k r 3 4 'D' ("=D") r.walk rfl (by decide) (by decide)
      hW hF4 hT htot
  · exact pct_col _ rs data.length k r 5 6 'F' ("=F") r.append_comments rfl (by decide)
      (by decide) hAC hF6 hT htot
  · exact pct_col _ rs data.length k r 7 8 'H' ("=H") r.walk_comments rfl (by decide)
      (by decide) hWC hF8 hT htot

/-! ### The sorted rows of a sheet (claim C5) -/

/-- Whether a raw row's sort key is exactly the integer `kk`. -/
def matchKey (x : List String) (kk : Int) : Bool :=
  match sortKeyOf x with
  | .ok k => k == kk
  | .error _ => false

theorem mem_insertDesc (p q : Int × List String) (l : List (Int × List String)) :
    q ∈ insertDesc p l ↔ q = p ∨ q ∈ l := by
  induction l with
  | nil => simp [insertDesc]
  | cons a as ih =>
    simp only [insertDesc]
    by_cases hlt : p.1 < a.1
    · simp only [if_pos hlt, List.mem_cons, ih]
      tauto
    · simp only [if_neg hlt, List.mem_cons]

theorem insertDesc_perm (p : Int × List String) (l : List (Int × List String)) :
    (insertDesc p l).Perm (p :: l) := by
  induction l with
  | nil => simp [insertDesc]
  | cons a as ih =>
    simp only [insertDesc]
    by_cases hlt : p.1 < a.1
    · rw [if_pos hlt]
      exact ((ih.cons a).trans (List.Perm.swap p a as))
    · rw [if_neg hlt]

theorem sortDescKeyed_perm (l : List (Int × List String)) :
    (sortDescKeyed l).Perm l := by
  induction l with
  | nil => simp [sortDescKeyed]
  | cons p ps ih =>
    simp only [sortDescKeyed]
    exact (insertDesc_perm p (sortDescKeyed ps)).trans (ih.cons p)

theorem pairwise_insertDesc (p : Int × List String) (l : List (Int × List String))
    (h : l.Pairwise (fun a b => b.1 ≤ a.1)) :
    (insertDesc p l).Pairwise (fun a b => b.1 ≤ a.1) := by
  induction l with
  | nil => simp [insertDesc]
  | cons q qs ih =>
    rw [List.pairwise_cons] at h
    obtain ⟨hq, hqs⟩ := h
    simp only [insertDesc]
    by_cases hlt : p.1 < q.1
    · rw [if_pos hlt, List.pairwise_cons]
      refine ⟨?_, ih hqs⟩
      intro x hx
      rcases (mem_insertDesc p x qs).mp hx with rfl | hx
      · omega
      · exact hq x hx
    · rw [if_neg hlt, List.pairwise_cons]
      refine ⟨?_, List.pairwise_cons.mpr ⟨hq, hqs⟩⟩
      intro x hx
      rcases List.mem_cons.mp hx with rfl | hx
      · omega
      · have := hq x hx
        omega

theorem sortDescKeyed_pairwise (l : List (Int × List String)) :
    (sortDescKeyed l).Pairwise (fun a b => b.1 ≤ a.1) := by
  induction l with
  | nil => simp [sortDescKeyed]
  | cons p ps ih => exact pairwise_insertDesc p (sortDescKeyed ps) ih

theorem filter_insertDesc (kk : Int) (p : Int × List String)
    (l : List (Int × List String)) :
    (insertDesc p l).filter (fun q => q.1 == kk) =
      if p.1 = kk then p :: l.filter (fun q => q.1 == kk)
      else l.filter (fun q => q.1 == kk) := by
  induction l with
  | nil =>
    simp only [insertDesc, List.filter_cons, List.filter_nil]
    by_cases hp : p.1 = kk
    · simp [hp]
    · simp [hp]
  | cons q qs ih =>
    simp only [insertDesc]
    by_cases hlt : p.1 < q.1
    · rw [if_pos hlt, List.filter_cons, List.filter_cons]
      by_cases hq : q.1 = kk
      · have hp : ¬p.1 = kk := by omega
        simp [hq, hp, ih]
      · simp [hq, ih]
    · rw [if_neg hlt, List.filter_cons, List.filter_cons]
      by_cases hp : p.1 = kk
      · simp [hp]
      · simp [hp]

theorem filter_sortDescKeyed (kk : Int) (l : List (Int × List String)) :
    (sortDescKeyed l).filter (fun q => q.1 == kk) = l.filter (fun q => q.1 == kk) := by
  induction l with
  | nil => rfl
  | cons p ps ih =>
    simp only [sortDescKeyed]
    rw [filter_insertDesc, List.filter_cons]
    by_cases hp : p.1 = kk
    · simp [hp, ih]
    · simp [hp, ih]

theorem keyedRows_ok : ∀ l kl, keyedRows l = .ok kl →
    kl.map Prod.snd = l ∧ ∀ p ∈ kl, sortKeyOf p.2 = .ok p.1 := by
  intro l
  induction l with
  | nil =>
    intro kl h
    simp only [keyedRows] at h
    injection h with h
    subst h
    simp
  | cons x xs ih =>
    intro kl h
    simp only [keyedRows] at h
    cases hx : sortKeyOf x with
    | error e => rw [hx] at h; simp at h
    | ok k =>
      rw [hx] at h
      cases hr : keyedRows xs with
      | error e => rw [hr] at h; simp at h
      | ok rest =>
        rw [hr] at h
        simp only [] at h
        injection h with h
        subst h
        obtain ⟨h1, h2⟩ := ih rest hr
        refine ⟨by simp [h1], ?_⟩
        intro p hp
        rcases List.mem_cons.mp hp with rfl | hp
        · exact hx
        · exact h2 p hp

/-- C5: on success, the rows the sheet writes are exactly the non-empty
input rows, in an order that is descending in the integer value of the
seventh field, and rows with equal file size keep their relative order
from the filtered input sequence. -/
theorem c5_rows_sorted_stable (data out : List (List String))
    (h : sortedData data = .ok out) :
    out.Perm (data.filter (fun x => !x.isEmpty)) ∧
      out.Pairwise (fun x y => ∀ kx ky, sortKeyOf x = .ok kx →
        sortKeyOf y = .ok ky → ky ≤ kx) ∧
      ∀ kk : Int, out.filter (fun x => matchKey x kk) =
        (data.filter (fun x => !x.isEmpty)).filter (fun x => matchKey x kk) := by
  unfold sortedData at h
  cases hk : keyedRows (data.filter (fun x => !x.isEmpty)) with
  | error e => rw [hk] at h; simp at h
  | ok keyed =>
    rw [hk] at h
    simp only [] at h
    injection h with h
    subst h
    obtain ⟨hmap, hkeys⟩ := keyedRows_ok _ keyed hk
    have hmemkeys : ∀ p ∈ sortDescKeyed keyed, sortKeyOf p.2 = .ok p.1 := by
      intro p hp
      exact hkeys p ((sortDescKeyed_perm keyed).mem_iff.mp hp)
    refine ⟨?_, ?_, ?_⟩
    · have hperm := (sortDescKeyed_perm keyed).map Prod.snd
      rwa [hmap] at hperm
    · rw [List.pairwise_map]
      refine List.Pairwise.imp_of_mem ?_ (sortDescKeyed_pairwise keyed)
      intro p q hpmem hqmem hR kx ky hkx hky
      have e1 := hmemkeys p hpmem
      have e2 := hmemkeys q hqmem
      rw [hkx] at e1
      rw [hky] at e2
      injection e1 with e1
      injection e2 with e2
      omega
    · intro kk
      rw [List.filter_map]
      have hc1 : (sortDescKeyed keyed).filter ((fun x => matchKey x kk) ∘ Prod.snd) =
          (sortDescKeyed keyed).filter (fun q => q.1 == kk) := by
        apply List.filter_congr
        intro p hp
        simp only [Function.comp_apply, matchKey, hmemkeys p hp]
      have hc2 : keyed.filter (fun q => q.1 == kk) =
          keyed.filter ((fun x => matchKey x kk) ∘ Prod.snd) := by
        apply List.filter_congr
        intro p hp
        simp only [Function.comp_apply, matchKey, hkeys p hp]
      rw [hc1, filter_sortDescKeyed, hc2, ← List.filter_map, hmap]

/-! ### Sheet-name derivation (claim C6) -/

/-- C6: the derived sheet name is the input filename with a leading
`stats-` stripped when present, then a trailing `.csv` stripped when
present, then truncated to 30 characters; it is always at most 30
characters long, `stats-parser_a.csv` yields `parser_a`, and a name
36 characters long after stripping is cut to its first 30 characters. -/
theorem c6_sheet_name :
    (∀ s : String, (deriveSheetName s).length ≤ 30) ∧
      deriveSheetName ("stats-parser_a.csv") = "parser_a" ∧
      deriveSheetName ("stats-abcdefghijklmnopqrstuvwxyz0123456789.csv") =
        "abcdefghijklmnopqrstuvwxyz0123" := by
  have h : ∀ l : List Char, (String.mk (l.take 30)).length ≤ 30 := by
    intro l
    show (l.take 30).length ≤ 30
    exact l.length_take_le 30
  exact ⟨fun s => h _, by decide, by decide⟩

/-! ### The usage error and the read-failure abort (claims C9 and C8) -/

/-- C9: invoked with zero input-file arguments (`argv` holds only the
program name), the run prints the usage message, exits with status 1, and
produces no `stats.xlsx` output. -/
theorem c9_usage_exit (prog : String) (fs : String → Option (List (List String))) :
    pyMain [prog] fs = .usage ∧ exitCodeOf (pyMain [prog] fs) = 1 ∧
      printsUsage (pyMain [prog] fs) = true ∧ outputOf (pyMain [prog] fs) = none := by
  have h : pyMain [prog] fs = .usage := rfl
  exact ⟨h, by rw [h]; rfl, by rw [h]; rfl, by rw [h]; rfl⟩

theorem readInputs_mem_none (fs : String → Option (List (List String))) :
    ∀ l f, f ∈ l → fs f = none → readInputs fs l = none := by
  intro l
  induction l with
  | nil => intro f hf _; simp at hf
  | cons x xs ih =>
    intro f hf hfail
    rcases List.mem_cons.mp hf with rfl | hf
    · simp [readInputs, read_data, hfail]
    · simp only [readInputs]
      cases hx : read_data fs x with
      | none => rfl
      | some d => simp [ih f hf hfail]

/-- C8: if any input file path is unreadable, the run aborts with the
propagated I/O error raised while reading the inputs — which all happen
before any workbook object exists — and no output file is produced. -/
theorem c8_read_failure_aborts (argv : List String)
    (fs : String → Option (List (List String))) (f : String)
    (hf : f ∈ argv.drop 1) (hfail : fs f = none) :
    pyMain argv fs = .ioAbort ∧ outputOf (pyMain argv fs) = none := by
  have hne : argv.drop 1 ≠ [] := by
    intro hnil
    rw [hnil] at hf
    exact (List.not_mem_nil f) hf
  have hlen : ¬argv.length < 2 := by
    have hpos : 0 < (argv.drop 1).length := List.length_pos.mpr hne
    rw [List.length_drop] at hpos
    omega
  have hread : readInputs fs (argv.drop 1) = none :=
    readInputs_mem_none fs (argv.drop 1) f hf hfail
  have h1 : pyMain argv fs = .ioAbort := by
    unfold pyMain
    rw [if_neg hlen, hread]
  exact ⟨h1, by rw [h1]; rfl⟩

theorem c8_witness :
    pyMain [("prog"), ("a.csv")] (fun _ => none) = .ioAbort ∧
      outputOf (pyMain [("prog"), ("a.csv")] (fun _ => none)) = none :=
  c8_read_failure_aborts [("prog"), ("a.csv")] (fun _ => none) ("a.csv")
    (by simp) rfl

/-! ### Rows without exactly seven fields (claim C10) -/

theorem parseRow_ok_length (x : List String) (r : StatRow)
    (h : parseRow x = .ok r) : x.length = 7 := by
  unfold parseRow at h
  split at h
  · simp
  · simp at h

theorem parseRow_len_ne (x : List String) (h : x.length ≠ 7) :
    parseRow x = .error .unpackValueError := by
  unfold parseRow
  split
  · simp at h
  · rfl

theorem sortKeyOf_short (x : List String) (h : x.length < 7) :
    sortKeyOf x = .error .indexError := by
  unfold sortKeyOf
  rw [show x.get? file_size_data_column = none from
    List.get?_eq_none.mpr (by unfold file_size_data_column; omega)]

theorem parseRows_ok_mem : ∀ l rs, parseRows l = .ok rs →
    ∀ x ∈ l, ∃ r, parseRow x = .ok r := by
  intro l
  induction l with
  | nil => intro rs _ x hx; simp at hx
  | cons y ys ih =>
    intro rs h x hx
    simp only [parseRows] at h
    cases hy : parseRow y with
    | error e => rw [hy] at h; simp at h
    | ok r =>
      rw [hy] at h
      cases hr : parseRows ys with
      | error e => rw [hr] at h; simp at h
      | ok rest =>
        rcases List.mem_cons.mp hx with rfl | hx
        · exact ⟨r, hy⟩
        · exact ih rest hr x hx

theorem keyedRows_ok_mem (l : List (List String)) (kl : List (Int × List String))
    (h : keyedRows l = .ok kl) : ∀ x ∈ l, ∃ k, sortKeyOf x = .ok k := by
  intro x hx
  obtain ⟨hmap, hkeys⟩ := keyedRows_ok l kl h
  rw [← hmap] at hx
  obtain ⟨p, hp, hpx⟩ := List.mem_map.mp hx
  exact ⟨p.1, by rw [← hpx]; exact hkeys p hp⟩

theorem sortedData_ok_mem (data out : List (List String))
    (h : sortedData data = .ok out) :
    (∀ x ∈ data.filter (fun y => !y.isEmpty), x ∈ out) ∧
      (∀ x ∈ data.filter (fun y => !y.isEmpty), ∃ k, sortKeyOf x = .ok k) := by
  unfold sortedData at h
  cases hk : keyedRows (data.filter (fun y => !y.isEmpty)) with
  | error e => rw [hk] at h; simp at h
  | ok keyed =>
    rw [hk] at h
    simp only [] at h
    injection h with h
    subst h
    obtain ⟨hmap, hkeys⟩ := keyedRows_ok _ keyed hk
    constructor
    · intro x hx
      rw [← hmap] at hx
      obtain ⟨p, hp, hpx⟩ := List.mem_map.mp hx
      have hmem : p ∈ sortDescKeyed keyed := (sortDescKeyed_perm keyed).mem_iff.mpr hp
      rw [← hpx]
      exact List.mem_map.mpr ⟨p, hmem, rfl⟩
    · intro x hx
      exact keyedRows_ok_mem _ keyed hk x hx

/-- C10 counterexample: a non-empty row of 6 valid integer fields aborts
the run with an index error — raised by `x[6]` while extracting the sort
key — not with an unpacking error. -/
theorem c10_short_row_not_unpack_error :
    create_worksheet ("x") [[("1"), ("2"), ("3"), ("4"), ("5"), ("6")]] =
      .error .indexError ∧ PyError.indexError ≠ PyError.unpackValueError :=
  ⟨rfl, by decide⟩

/-- C10 amended: every non-empty row of a successfully built sheet has
exactly 7 fields; a non-empty row with any other field count aborts the
run — with an index error from the sort-key extraction when it has fewer
than 7 fields, and with an unpacking error when it has more than 7 fields
and a parseable seventh field. -/
theorem c10_field_count_amended :
    (∀ name data ws, create_worksheet name data = .ok ws →
        ∀ x ∈ data, x ≠ [] → x.length = 7) ∧
      (∀ name data x, x ∈ data → x ≠ [] → x.length ≠ 7 →
        ∃ e, create_worksheet name data = .error e) ∧
      (∀ name (x : List String), x ≠ [] → x.length < 7 →
        create_worksheet name [x] = .error .indexError) ∧
      (∀ name x k, 7 < x.length → sortKeyOf x = .ok k →
        create_worksheet name [x] = .error .unpackValueError) := by
  have partA : ∀ name data ws, create_worksheet name data = .ok ws →
      ∀ x ∈ data, x ≠ [] → x.length = 7 := by
    intro name data ws h x hx hne
    have hsheet : ∃ rs, sheetRows data = .ok rs := by
      unfold create_worksheet at h
      cases hs : sheetRows data with
      | error e => rw [hs] at h; simp at h
      | ok rs => exact ⟨rs, rfl⟩
    obtain ⟨rs, hrs⟩ := hsheet
    have hsorted : ∃ out, sortedData data = .ok out ∧ parseRows out = .ok rs := by
      unfold sheetRows at hrs
      cases hs : sortedData data with
      | error e => rw [hs] at hrs; simp at hrs
      | ok out => rw [hs] at hrs; exact ⟨out, rfl, hrs⟩
    obtain ⟨out, hout, hparse⟩ := hsorted
    have hxf : x ∈ data.filter (fun y => !y.isEmpty) := by
      refine List.mem_filter.mpr ⟨hx, ?_⟩
      cases x with
      | nil => exact absurd rfl hne
      | cons c cs => rfl
    have hxo : x ∈ out := (sortedData_ok_mem data out hout).1 x hxf
    obtain ⟨r, hr⟩ := parseRows_ok_mem out rs hparse x hxo
    exact parseRow_ok_length x r hr
  refine ⟨partA, ?_, ?_, ?_⟩
  · intro name data x hx hne hlen
    cases hcw : create_worksheet name data with
    | error e => exact ⟨e, rfl⟩
    | ok ws => exact absurd (partA name data ws hcw x hx hne) hlen
  · intro name x hne hlen
    have hfil : [x].filter (fun y => !y.isEmpty) = [x] := by
      cases x with
      | nil => exact absurd rfl hne
      | cons c cs => rfl
    have hkey : sortKeyOf x = .error .indexError := sortKeyOf_short x hlen
    have hkr : keyedRows [x] = .error .indexError := by
      simp only [keyedRows, hkey]
    unfold create_worksheet sheetRows sortedData
    rw [hfil, hkr]
  · intro name x k hlen hkey
    have hne : x ≠ [] := by
      intro h
      rw [h] at hlen
      simp at hlen
    have hfil : [x].filter (fun y => !y.isEmpty) = [x] := by
      cases x with
      | nil => exact absurd rfl hne
      | cons c cs => rfl
    have hparse : parseRow x = .error .unpackValueError := parseRow_len_ne x (by omega)
    have hkr : keyedRows [x] = .ok [(k, x)] := by
      simp only [keyedRows, hkey]
    unfold create_worksheet sheetRows sortedData
    rw [hfil, hkr]
    simp only [sortDescKeyed, insertDesc, List.map_cons, List.map_nil, parseRows, hparse]

theorem c10_witness :
    create_worksheet ("w")
      [[("1"), ("2"), ("3"), ("4"), ("5"), ("6"), ("7"), ("8")]] =
      .error .unpackValueError :=
  c10_field_count_amended.2.2.2 ("w")
    [("1"), ("2"), ("3"), ("4"), ("5"), ("6"), ("7"), ("8")] 7 (by decide) rfl

/-! ### Concrete two-row dataset exhibiting the off-by-one range bugs
(claims C2, C3, C4) -/

/-- Two non-empty, well-formed rows; file sizes already descending, so the
rows are written in this order at spreadsheet rows 2 and 3. -/
def sampleData : List (List String) :=
  [[("a"), ("10"), ("20"), ("30"), ("40"), ("400"), ("10")],
   [("b"), ("20"), ("30"), ("40"), ("50"), ("600"), ("5")]]

/-- The successfully built sheet for `sampleData`. -/
def sampleWs : Worksheet :=
  match create_worksheet ("stats-x.csv") sampleData with
  | .ok ws => ws
  | .error _ => ⟨"", [], [], "", "", ""⟩

/-- C2 (code bug): with 2 data rows, written at spreadsheet rows 2 and 3,
the grand-total cell holds `=SUM(J2:J2) / 1000 / 1000` — its range ends at
row 2 = `len(sorted_data)`, excluding the last data row's total cell J3
(which holds 600) — so it evaluates to 400 / 1e6, not to the claimed
(400 + 600) / 1e6 over all rows. The two-decimal display format is
present. -/
theorem c2_grand_total_excludes_last_row :
    create_worksheet ("stats-x.csv") sampleData = .ok sampleWs ∧
      fmtAt sampleWs 5 14 = some two_decimal_format ∧
      cellAt sampleWs 5 14 = some (.formula ("=SUM(J2:J2) / 1000 / 1000")) ∧
      parseSumMsFormula ("=SUM(J2:J2) / 1000 / 1000") = some (('J', 2), ('J', 2)) ∧
      cellAt sampleWs 2 9 = some (.num 600) ∧
      evalSumMs sampleWs ("=SUM(J2:J2) / 1000 / 1000") = some (400 / 1000000) ∧
      (400 : Rat) / 1000000 ≠ (400 + 600) / 1000000 := by
  refine ⟨rfl, by decide, by decide, by decide, by decide, ?_, by norm_num⟩
  have h : evalSumMs sampleWs ("=SUM(J2:J2) / 1000 / 1000")
      = some ((((400 : Int) : Rat) + 0) / 1000 / 1000) := rfl
  have h2 : (((400 : Int) : Rat) + 0) / 1000 / 1000 = 400 / 1000000 := by norm_num
  rw [h, h2]

/-- C3 (code bug): with 2 data rows the five summary statistics are
AVERAGE formulas over rows 1..2 of their columns — including the header
cell in row 1 and excluding the last data row in row 3 — so the average
of column B evaluates to 10 (the first row alone), not the claimed
all-rows average (10 + 20) / 2. -/
theorem c3_average_range_misaligned :
    create_worksheet ("stats-x.csv") sampleData = .ok sampleWs ∧
      cellAt sampleWs 0 14 = some (.formula ("=AVERAGE(B1:B2)")) ∧
      cellAt sampleWs 1 14 = some (.formula ("=AVERAGE(C1:C2)")) ∧
      cellAt sampleWs 2 14 = some (.formula ("=AVERAGE(E1:E2)")) ∧
      cellAt sampleWs 3 14 = some (.formula ("=AVERAGE(G1:G2)")) ∧
      cellAt sampleWs 4 14 = some (.formula ("=AVERAGE(I1:I2)")) ∧
      parseAvgFormula ("=AVERAGE(B1:B2)") = some (('B', 1), ('B', 2)) ∧
      cellAt sampleWs 0 1 = some (.str ("ast")) ∧
      rangeHasCell ("B1:B2") 'B' 1 = true ∧
      cellAt sampleWs 2 1 = some (.num 20) ∧
      rangeHasCell ("B1:B2") 'B' 3 = false ∧
      evalAverage sampleWs ("=AVERAGE(B1:B2)") = some 10 ∧
      (10 : Rat) ≠ (10 + 20) / 2 := by
  refine ⟨rfl, by decide, by decide, by decide, by decide, by decide, by decide,
    by decide, by decide, by decide, by decide, ?_, by norm_num⟩
  have h : evalAverage sampleWs ("=AVERAGE(B1:B2)")
      = some ((((10 : Int) : Rat) + 0) / (((1 : Nat) : Rat))) := rfl
  have h2 : (((10 : Int) : Rat) + 0) / (((1 : Nat) : Rat)) = 10 := by norm_num
  rw [h, h2]

/-- C4 (code bug): the four conditional-formatting tiers are declared
highest-first and, on the cells their ranges do cover, 0.9 falls under the
near-black rule, 0.6 under red, 0.3 under yellow and 0.1 under green; but
the range is `C2:C{len(data)}` = `C2:C2`, so the percentage cell written
for the last data row at C3 is covered by no rule at all. -/
theorem c4_conditional_format_gap :
    create_worksheet ("stats-x.csv") sampleData = .ok sampleWs ∧
      rulesForCell sampleWs 'C' 2 =
        [⟨("C2:C2"), ("greater than"), 0.75, black_bg_format⟩,
         ⟨("C2:C2"), ("greater than"), 0.5, red_bg_format⟩,
         ⟨("C2:C2"), ("greater than"), 0.25, yellow_bg_format⟩,
         ⟨("C2:C2"), ("greater than"), 0, green_bg_format⟩] ∧
      dominantFmtAt sampleWs 'C' 2 0.9 = some black_bg_format ∧
      dominantFmtAt sampleWs 'C' 2 0.6 = some red_bg_format ∧
      dominantFmtAt sampleWs 'C' 2 0.3 = some yellow_bg_format ∧
      dominantFmtAt sampleWs 'C' 2 0.1 = some green_bg_format ∧
      cellAt sampleWs 2 2 = some (.formula ("=B3/J3")) ∧
      rulesForCell sampleWs 'C' 3 = [] ∧
      dominantFmtAt sampleWs 'C' 3 0.9 = none := by
  have hrules : rulesForCell sampleWs 'C' 2 =
      [⟨("C2:C2"), ("greater than"), 0.75, black_bg_format⟩,
       ⟨("C2:C2"), ("greater than"), 0.5, red_bg_format⟩,
       ⟨("C2:C2"), ("greater than"), 0.25, yellow_bg_format⟩,
       ⟨("C2:C2"), ("greater than"), 0, green_bg_format⟩] := rfl
  have hr3 : rulesForCell sampleWs 'C' 3 = [] := rfl
  refine ⟨rfl, hrules, ?_, ?_, ?_, ?_, by decide, hr3, ?_⟩
  · have h1 : (0.75 : Rat) < 0.9 := by norm_num
    simp [dominantFmtAt, hrules, List.find?, h1]
  · have h1 : ¬(0.75 : Rat) < 0.6 := by norm_num
    have h2 : (0.5 : Rat) < 0.6 := by norm_num
    simp [dominantFmtAt, hrules, List.find?, h1, h2]
  · have h1 : ¬(0.75 : Rat) < 0.3 := by norm_num
    have h2 : ¬(0.5 : Rat) < 0.3 := by norm_num
    have h3 : (0.25 : Rat) < 0.3 := by norm_num
    simp [dominantFmtAt, hrules, List.find?, h1, h2, h3]
  · have h1 : ¬(0.75 : Rat) < 0.1 := by norm_num
    have h2 : ¬(0.5 : Rat) < 0.1 := by norm_num
    have h3 : ¬(0.25 : Rat) < 0.1 := by norm_num
    have h4 : (0 : Rat) < 0.1 := by norm_num
    simp [dominantFmtAt, hrules, List.find?, h1, h2, h3, h4]
  · simp [dominantFmtAt, hr3]

/-! ### The summary sheet (claim C7) -/

theorem find?_totalRowWrites_ne (m col i d : Nat) (nm : String) (hm : i ≠ m) :
    (totalRowWrites d i nm).find? (fun w => w.row == m && w.col == col) = none := by
  rw [List.find?_eq_none]
  intro x hx
  simp only [totalRowWrites, List.mem_cons, List.not_mem_nil, or_false] at hx
  rcases hx with rfl | rfl | rfl <;> simp [hm]

theorem find?_totalRowsFrom_lt (names : List String) : ∀ d s m col, m < s →
    (totalRowsFrom d s names).find? (fun w => w.row == m && w.col == col) = none := by
  induction names with
  | nil => intro d s m col _; rfl
  | cons nm rest ih =>
    intro d s m col h
    simp only [totalRowsFrom, List.find?_append,
      find?_totalRowWrites_ne m col s d nm (by omega), Option.none_or]
    exact ih d (s + 1) m col (by omega)

theorem find?_totalRowsFrom (names : List String) : ∀ d s k nm col,
    names.get? k = some nm →
    (totalRowsFrom d s names).find? (fun w => w.row == (s + k) && w.col == col) =
      (totalRowWrites d (s + k) nm).find? (fun w => w.row == (s + k) && w.col == col) := by
  induction names with
  | nil => intro d s k nm col h; simp at h
  | cons n0 rest ih =>
    intro d s k nm col h
    cases k with
    | zero =>
      simp only [List.get?] at h
      obtain rfl : n0 = nm := by injection h
      simp only [totalRowsFrom, List.find?_append,
        find?_totalRowsFrom_lt rest d (s + 1) (s + 0) col (by omega), Option.or_none]
      rw [Nat.add_zero]
    | succ j =>
      simp only [List.get?] at h
      simp only [totalRowsFrom, List.find?_append,
        find?_totalRowWrites_ne (s + (j + 1)) col s d n0 (by omega), Option.none_or]
      have hrec := ih d (s + 1) j nm col h
      rw [show s + (j + 1) = (s + 1) + j by omega]
      exact hrec

theorem find?_totalRowsFrom_ge (names : List String) : ∀ d s m col,
    s + names.length ≤ m →
    (totalRowsFrom d s names).find? (fun w => w.row == m && w.col == col) = none := by
  induction names with
  | nil => intro d s m col _; rfl
  | cons nm rest ih =>
    intro d s m col h
    simp only [List.length_cons] at h
    simp only [totalRowsFrom, List.find?_append,
      find?_totalRowWrites_ne m col s d nm (by omega), Option.none_or]
    exact ih d (s + 1) m col (by omega)

theorem trw_col0 (d i : Nat) (nm : String) :
    (totalRowWrites d i nm).find? (fun w => w.row == i && w.col == 0) =
      some ⟨i, 0, .str nm, no_format⟩ := by
  simp [totalRowWrites, List.find?]

theorem trw_col1 (d i : Nat) (nm : String) :
    (totalRowWrites d i nm).find? (fun w => w.row == i && w.col == 1) =
      some ⟨i, 1, .formula ("=" ++ nm ++ "!$O$6"), no_format⟩ := by
  simp [totalRowWrites, List.find?]

theorem trw_col2 (d i : Nat) (nm : String) :
    (totalRowWrites d i nm).find? (fun w => w.row == i && w.col == 2) =
      some ⟨i, 2, .formula ("=" ++ nm ++ "!$O$6 / $B$" ++ natStr d), percent_format⟩ := by
  simp [totalRowWrites, List.find?]

/-- The cells of summary row `k` come from that row's write block alone. -/
theorem cellAtT_row (names : List String) (k col : Nat) (nm : String)
    (hk : names.get? k = some nm) :
    cellAtT (create_total_chart names) k col =
      ((totalRowWrites (names.length + 3) k nm).find?
        (fun w => w.row == k && w.col == col)).map (fun w => w.cell) := by
  have hklt : k < names.length := by
    rcases List.get?_eq_some.mp hk with ⟨h, _⟩
    exact h
  unfold cellAtT create_total_chart
  simp only [List.find?_append]
  have h1 := find?_totalRowsFrom names (names.length + 3) 0 k nm col hk
  rw [Nat.zero_add] at h1
  rw [h1]
  have h2 : List.find? (fun w => w.row == k && w.col == col)
      ([⟨names.length + 2, 0, .str ("Total"), no_format⟩,
        ⟨names.length + 2, 1,
          .formula ("=SUM($B$1:$B$" ++ natStr names.length ++ ")"), no_format⟩] :
        List Write) = none := by
    rw [List.find?_eq_none]
    intro x hx
    simp only [List.mem_cons, List.not_mem_nil, or_false] at hx
    rcases hx with rfl | rfl <;> simp <;> omega
  rw [h2, Option.or_none]

/-- The aggregate cell at worksheet row `len + 2`, column B. -/
theorem cellAtT_aggregate (names : List String) :
    cellAtT (create_total_chart names) (names.length + 2) 1 =
      some (.formula ("=SUM($B$1:$B$" ++ natStr names.length ++ ")")) := by
  unfold cellAtT create_total_chart
  simp only [List.find?_append]
  rw [find?_totalRowsFrom_ge names (names.length + 3) 0 (names.length + 2) 1 (by omega),
    Option.none_or]
  simp [List.find?]

theorem splitAtBang_append (nm rest : List Char) (h : '!' ∉ nm) :
    splitAtBang (nm ++ '!' :: rest) = some (nm, rest) := by
  induction nm with
  | nil => simp [splitAtBang]
  | cons c cs ih =>
    simp only [List.mem_cons, not_or] at h
    obtain ⟨h1, h2⟩ := h
    simp only [List.cons_append, splitAtBang]
    have hc : ¬(c == '!') = true := by
      simp only [beq_iff_eq]
      intro e
      exact h1 e.symm
    rw [if_neg hc]
    simp [List.append_eq, ih h2]

theorem dropLead_eq_chr (X : List Char) :
    dropLead ['='] ('=' :: X) = some X := by
  simp [dropLead]

theorem parseSheetRefO6_build (nm : String) (h : '!' ∉ nm.data) :
    parseSheetRefO6 ("=" ++ nm ++ "!$O$6") = some nm := by
  unfold parseSheetRefO6
  have hdata : ("=" ++ nm ++ "!$O$6").data =
      '=' :: (nm.data ++ '!' :: ['$', 'O', '$', '6']) := by
    simp only [String.data_append]
    simp
  rw [hdata]
  simp only [dropLead_eq_chr, splitAtBang_append nm.data ['$', 'O', '$', '6'] h]
  rfl

theorem parseShareFormula_build (nm : String) (h : '!' ∉ nm.data) (d : Nat) :
    parseShareFormula ("=" ++ nm ++ "!$O$6 / $B$" ++ natStr d) = some (nm, d) := by
  unfold parseShareFormula
  have hdata : ("=" ++ nm ++ "!$O$6 / $B$" ++ natStr d).data =
      '=' :: (nm.data ++ '!' ::
        (['$', 'O', '$', '6', ' ', '/', ' ', '$', 'B', '$'] ++ (natStr d).data)) := by
    simp only [String.data_append]
    simp
  rw [hdata]
  have hnat : parseNatChars ((natStr d).data) = some (d, []) := by
    have hh := parseNatChars_natStr d [] rfl
    rwa [List.append_nil] at hh
  simp only [dropLead_eq_chr,
    splitAtBang_append nm.data
      (['$', 'O', '$', '6', ' ', '/', ' ', '$', 'B', '$'] ++ (natStr d).data) h,
    dropLead_append, hnat]
  rfl

theorem parseAbsSumB_build (n : Nat) :
    parseAbsSumB ("=SUM($B$1:$B$" ++ natStr n ++ ")") = some (1, n) := by
  unfold parseAbsSumB
  have hdata : ("=SUM($B$1:$B$" ++ natStr n ++ ")").data =
      ['=', 'S', 'U', 'M', '(', '$', 'B', '$'] ++
        ('1' :: ([':', '$', 'B', '$'] ++ ((natStr n).data ++ [')']))) := by
    simp only [String.data_append]
    simp
  rw [hdata]
  have h1 : parseNatChars ('1' :: ([':', '$', 'B', '$'] ++ ((natStr n).data ++ [')']))) =
      some (1, [':', '$', 'B', '$'] ++ ((natStr n).data ++ [')'])) := by
    have hd1 : isDigitC '1' = true := by decide
    have hd2 : isDigitC ':' = false := by decide
    simp [parseNatChars, parseNatAux, hd1, hd2, show digitVal '1' = 1 from by decide]
  have h2 : parseNatChars ((natStr n).data ++ [')']) = some (n, [')']) :=
    parseNatChars_natStr n [')'] (by rfl)
  simp only [dropLead_append, h1, h2]
  rfl

theorem sumCells_eq (g : Nat → Option Rat) : ∀ (vals : List Rat) (a : Nat),
    (∀ j v, vals.get? j = some v → g (a + j) = some v) →
    sumCells g a vals.length = some vals.sum := by
  intro vals
  induction vals with
  | nil => intro a _; simp [sumCells]
  | cons v vs ih =>
    intro a h
    have h0 : g a = some v := by
      have hh := h 0 v rfl
      rwa [Nat.add_zero] at hh
    have hrec : sumCells g (a + 1) vs.length = some vs.sum := by
      apply ih
      intro j w hj
      have hh := h (j + 1) w (by simpa using hj)
      rwa [show a + (j + 1) = a + 1 + j by omega] at hh
    simp only [List.length_cons, sumCells, h0, hrec]
    simp [List.sum_cons]

/-- Value of summary row `k`'s column-B cell: the referenced sheet's
grand-total value. -/
theorem totalBValue_row (names : List String) (sheetTotal : String → Rat)
    (k : Nat) (nm : String) (hk : names.get? k = some nm) (hbang : '!' ∉ nm.data) :
    totalBValue (create_total_chart names) sheetTotal (k + 1) = some (sheetTotal nm) := by
  unfold totalBValue
  rw [show k + 1 - 1 = k from rfl, cellAtT_row names k 1 nm hk,
    trw_col1 (names.length + 3) k nm]
  simp [parseSheetRefO6_build nm hbang]

/-- C7: the summary sheet is named `Total`; for each prior sheet name, in
order, row `k` holds the name, a formula referencing that sheet's
grand-total cell `$O$6`, and a share formula dividing it by the aggregate
cell `$B$(len + 3)`; the aggregate cell below the rows holds
`=SUM($B$1:$B$len)`, whose range covers exactly the per-sheet rows
1..len, and evaluating it yields the sum of the per-sheet total formulas
written above it. Cross-sheet references evaluate under any valuation of
the sheets' totals, provided the names contain no `!` (with a `!` the
unquoted reference would be ambiguous). -/
theorem c7_total_sheet (names : List String) (sheetTotal : String → Rat) :
    (create_total_chart names).name = "Total" ∧
      (∀ k nm, names.get? k = some nm →
        cellAtT (create_total_chart names) k 0 = some (.str nm) ∧
        cellAtT (create_total_chart names) k 1 =
          some (.formula ("=" ++ nm ++ "!$O$6")) ∧
        ('!' ∉ nm.data → parseSheetRefO6 ("=" ++ nm ++ "!$O$6") = some nm ∧
          totalBValue (create_total_chart names) sheetTotal (k + 1) =
            some (sheetTotal nm)) ∧
        cellAtT (create_total_chart names) k 2 =
          some (.formula ("=" ++ nm ++ "!$O$6 / $B$" ++ natStr (names.length + 3))) ∧
        ('!' ∉ nm.data →
          parseShareFormula ("=" ++ nm ++ "!$O$6 / $B$" ++ natStr (names.length + 3)) =
            some (nm, names.length + 3))) ∧
      cellAtT (create_total_chart names) (names.length + 2) 1 =
        some (.formula ("=SUM($B$1:$B$" ++ natStr names.length ++ ")")) ∧
      parseAbsSumB ("=SUM($B$1:$B$" ++ natStr names.length ++ ")") =
        some (1, names.length) ∧
      ((∀ nm ∈ names, '!' ∉ nm.data) →
        evalAbsSumB (create_total_chart names) sheetTotal
          ("=SUM($B$1:$B$" ++ natStr names.length ++ ")") =
          some ((names.map sheetTotal).sum)) := by
  refine ⟨rfl, ?_, cellAtT_aggregate names, parseAbsSumB_build names.length, ?_⟩
  · intro k nm hk
    refine ⟨?_, ?_, ?_, ?_, ?_⟩
    · rw [cellAtT_row names k 0 nm hk, trw_col0]; rfl
    · rw [cellAtT_row names k 1 nm hk, trw_col1]; rfl
    · intro hb
      exact ⟨parseSheetRefO6_build nm hb, totalBValue_row names sheetTotal k nm hk hb⟩
    · rw [cellAtT_row names k 2 nm hk, trw_col2]; rfl
    · intro hb
      exact parseShareFormula_build nm hb (names.length + 3)
  · intro hbang
    unfold evalAbsSumB
    rw [parseAbsSumB_build names.length]
    show sumCells (totalBValue (create_total_chart names) sheetTotal) 1 names.length =
      some ((names.map sheetTotal).sum)
    rw [show names.length = (names.map sheetTotal).length from
      (List.length_map names sheetTotal).symm]
    apply sumCells_eq
    intro j v hj
    rw [List.get?_map] at hj
    cases hnm : names.get? j with
    | none => rw [hnm] at hj; simp at hj
    | some nm =>
      rw [hnm] at hj
      simp only [Option.map_some'] at hj
      injection hj with hj
      subst hj
      rw [show 1 + j = j + 1 by omega]
      exact totalBValue_row names sheetTotal j nm hnm (hbang nm (List.get?_mem hnm))

theorem c7_witness :
    (create_total_chart [("a"), ("b")]).name = "Total" ∧
      cellAtT (create_total_chart [("a"), ("b")]) 0 0 = some (.str ("a")) ∧
      evalAbsSumB (create_total_chart [("a"), ("b")])
        (fun nm => if nm == ("a") then 3 else 4)
        ("=SUM($B$1:$B$" ++ natStr 2 ++ ")") =
        some (([("a"), ("b")].map (fun nm => if nm == ("a") then 3 else 4)).sum) := by
  have h := c7_total_sheet [("a"), ("b")] (fun nm => if nm == ("a") then 3 else 4)
  exact ⟨h.1, (h.2.1 0 ("a") rfl).1, h.2.2.2.2 (by decide)⟩

/-- The parsed rows of `sampleData`, in written order. -/
def sampleRows : List StatRow :=
  [⟨("a"), 10, 20, 30, 40, 400, 10⟩, ⟨("b"), 20, 30, 40, 50, 600, 5⟩]

theorem c1_witness : pctCellOk sampleWs 0 2 'B' 10 400 :=
  (c1_percentage_formulas ("stats-x.csv") sampleData sampleWs sampleRows 0
    ⟨("a"), 10, 20, 30, 40, 400, 10⟩ rfl rfl rfl (by decide)).1

/-- Input rows with an empty line and with two equal-size ties absent;
sizes 50, 200, 10 must come out as 200, 50, 10. -/
def c5data : List (List String) :=
  [[("a"), ("1"), ("1"), ("1"), ("1"), ("4"), ("50")], [],
   [("b"), ("1"), ("1"), ("1"), ("1"), ("4"), ("200")],
   [("c"), ("1"), ("1"), ("1"), ("1"), ("4"), ("10")]]

/-- The expected sorted output of `c5data`. -/
def c5out : List (List String) :=
  [[("b"), ("1"), ("1"), ("1"), ("1"), ("4"), ("200")],
   [("a"), ("1"), ("1"), ("1"), ("1"), ("4"), ("50")],
   [("c"), ("1"), ("1"), ("1"), ("1"), ("4"), ("10")]]

theorem c5_witness :
    sortedData c5data = .ok c5out ∧
      c5out.Pairwise (fun x y => ∀ kx ky, sortKeyOf x = .ok kx →
        sortKeyOf y = .ok ky → ky ≤ kx) :=
  ⟨rfl, (c5_rows_sorted_stable c5data c5out rfl).2.1⟩
